import Mathlib

/-!
A shallow embedding in Lean 4 of the solar-site-feasibility script
(`src/main.py`) and proofs about the properties its specification states.

Modelling conventions:
  * Python numbers (ints and floats mixed by `/`, `*`, `max`, `round`) are
    modelled as exact rationals `ℚ`; the float constants `0.6`/`0.4` are the
    exact rationals `6/10`/`4/10`.
  * Parsed JSON values are the inductive `JValue`; `json.loads` itself is an
    external library and is abstracted as a parameter `loads : String → Option JValue`
    (`none` meaning a `JSONDecodeError`).
  * A Python function that can raise an uncaught exception is modelled with an
    `Option` result, `none` meaning "an exception was raised".
  * Python's `str.lower` / `int(...)` / `str.strip` are modelled on their
    ASCII behaviour, which is the domain the program's data lives in.
-/

/-- ASCII/latin whitespace stripped by Python's `str.strip()`. -/
def isPyWs (c : Char) : Bool :=
  c = ' ' || c = '\t' || c = '\n' || c = '\r' || c = '\x0b' || c = '\x0c'

/-- Python `str.strip()` on a character list. -/
def pyStripChars (cs : List Char) : List Char :=
  ((cs.dropWhile isPyWs).reverse.dropWhile isPyWs).reverse

/-- Python `str.strip()`. -/
def pyStrip (s : String) : String :=
  String.mk (pyStripChars s.toList)

/-- Substring test on character lists: does `needle` occur inside `haystack`?
Models Python's `needle in haystack` for strings. -/
def strContainsList : List Char → List Char → Bool
  | [], needle => needle.isEmpty
  | c :: rest, needle => needle.isPrefixOf (c :: rest) || strContainsList rest needle

/-- Python `needle in haystack` for strings. -/
def strContains (haystack needle : String) : Bool :=
  strContainsList haystack.toList needle.toList

/-- Python `str.lower()` (ASCII case folding). -/
def toLowerStr (s : String) : String :=
  String.mk (s.toList.map Char.toLower)

/-- Python `s.split('-')[0]`: the segment before the first hyphen
(the whole string when there is no hyphen). -/
def pySplitHead (s : String) : String :=
  String.mk (s.toList.takeWhile (fun c => c != '-'))

/-- Digit-run scanner for Python `int(...)`: after an initial digit,
accepts digits with single underscores strictly between digits. -/
def pyDigitsGo : Nat → List Char → Option Nat
  | acc, [] => some acc
  | acc, '_' :: c :: rest =>
      if c.isDigit then pyDigitsGo (acc * 10 + (c.toNat - 48)) rest else none
  | _, ['_'] => none
  | acc, c :: rest =>
      if c.isDigit then pyDigitsGo (acc * 10 + (c.toNat - 48)) rest else none

/-- Nonempty decimal digit run (with Python's underscore grouping). -/
def pyDigits : List Char → Option Nat
  | [] => none
  | c :: rest => if c.isDigit then pyDigitsGo (c.toNat - 48) rest else none

/-- Python `int(s)` on a decimal string: strips surrounding whitespace, then an
optional sign followed by digits; `none` models a raised `ValueError`. -/
def pyInt (s : String) : Option Int :=
  match pyStripChars s.toList with
  | '+' :: rest => (pyDigits rest).map (fun n => (n : Int))
  | '-' :: rest => (pyDigits rest).map (fun n => -(n : Int))
  | rest => (pyDigits rest).map (fun n => (n : Int))

/-- Parsed JSON values (the result type of `json.loads`). -/
inductive JValue where
  | null
  | bool (b : Bool)
  | num (q : ℚ)
  | str (s : String)
  | arr (elts : List JValue)
  | obj (fields : List (String × JValue))
deriving Repr

/-- Python truthiness of a parsed JSON value. -/
def pyTruthy : JValue → Bool
  | .null => false
  | .bool b => b
  | .num q => q ≠ 0
  | .str s => s ≠ ""
  | .arr l => !l.isEmpty
  | .obj f => !f.isEmpty

/-- First-match key lookup in an association list (Python `d[k]` / `k in d`
on dicts, whose keys are unique). -/
def dlookup {α : Type} (k : String) : List (String × α) → Option α
  | [] => none
  | (k', v) :: rest => if k' = k then some v else dlookup k rest

/-- Coerce a JSON value to a Python number where Python arithmetic would
accept it (`bool` is an `int` subtype); `none` models a `TypeError`. -/
def asNumber : JValue → Option ℚ
  | .num q => some q
  | .bool b => some (if b then 1 else 0)
  | _ => none

/-- Python's `needle in container` where `needle` is a string and `container`
is a parsed JSON value: key test on dicts, element test on lists, substring
test on strings; `none` models the `TypeError` raised on numbers and `None`. -/
def pyInOp (needle : String) : JValue → Option Bool
  | .obj fields => some (fields.any (fun kv => kv.1 = needle))
  | .arr l => some (l.any (fun v => match v with
      | .str s => s = needle
      | _ => false))
  | .str s => some (strContains s needle)
  | _ => none

/-- A news article as handled by `site_impact_research_tool`: the tool only
inspects `article.get('title', '')`; the rest of the record is opaque payload. -/
structure Article where
  title? : Option String
  payload : String
deriving DecidableEq, Repr

/-- Python `article.get('title', '')`. -/
def articleTitle (a : Article) : String :=
  a.title?.getD ""

/-- The deduplication loop of `site_impact_research_tool` (src/main.py lines
73-80): walk the articles keeping the first occurrence of each nonempty title;
`seen` is the `seen_titles` set. -/
def dedupAux (seen : List String) : List Article → List Article
  | [] => []
  | a :: rest =>
      if articleTitle a ∉ seen ∧ articleTitle a ≠ "" then
        a :: dedupAux (articleTitle a :: seen) rest
      else
        dedupAux seen rest

/-- The `seen_titles` set after the deduplication loop has processed a list. -/
def seenAfter (seen : List String) : List Article → List String
  | [] => seen
  | a :: rest =>
      if articleTitle a ∉ seen ∧ articleTitle a ≠ "" then
        seenAfter (articleTitle a :: seen) rest
      else
        seenAfter seen rest

/-- Title-based deduplication starting from an empty `seen_titles` set. -/
def dedupArticles (articles : List Article) : List Article :=
  dedupAux [] articles

/-- Python `x or default` for an optional string (`None` and `''` are falsy). -/
def pyOrStr (x : Option String) (default : String) : String :=
  match x with
  | none => default
  | some s => if s = "" then default else s

/-- The structured content of the JSON object returned by
`site_impact_research_tool`. -/
structure ResearchOutput where
  total_articles : Nat
  articles : List Article
  search_location : String
deriving DecidableEq, Repr

/-- The aggregation part of `site_impact_research_tool` (src/main.py lines
67-86): `searchResults` is the list of per-phrase results returned by
`_perform_news_search` (the HTTP call itself is external); the tool extends
`all_articles` with each of them, deduplicates by title, and returns the
first 10 unique articles, the unique count, and `location or 'General'`. -/
def site_impact_research_tool (location : Option String)
    (searchResults : List (List Article)) : ResearchOutput :=
  let all_articles := searchResults.foldl (fun acc articles => acc ++ articles) []
  let unique_articles := dedupArticles all_articles
  { total_articles := unique_articles.length
    articles := unique_articles.take 10
    search_location := pyOrStr location "General" }

/-- A static jurisdiction rule record (src/main.py lines 101-143). -/
structure JurisdictionRule where
  jurisdiction_name : String
  permit_type : String
  requirements : List String
  fees : Int
  processing_time : String
  contact : String
deriving DecidableEq, Repr

/-- The `los_angeles` entry of `JURISDICTION_RULES`. -/
def losAngelesRule : JurisdictionRule :=
  { jurisdiction_name := "City of Los Angeles"
    permit_type := "Solar Installation Permit"
    requirements := ["Site plan with solar array layout",
      "Electrical single-line diagram",
      "Structural calculations",
      "Interconnection application",
      "LADBS permit application"]
    fees := 500
    processing_time := "4-6 weeks"
    contact := "ladbs.lacity.org" }

/-- The `san_francisco` entry of `JURISDICTION_RULES`. -/
def sanFranciscoRule : JurisdictionRule :=
  { jurisdiction_name := "City of San Francisco"
    permit_type := "Solar Photovoltaic System Permit"
    requirements := ["Solar system plans and specifications",
      "Electrical permit application",
      "Building permit (if roof modifications)",
      "Fire department clearance form",
      "Utility interconnection agreement"]
    fees := 750
    processing_time := "3-4 weeks"
    contact := "sfdbi.org" }

/-- The `california_default` entry of `JURISDICTION_RULES`. -/
def californiaDefaultRule : JurisdictionRule :=
  { jurisdiction_name := "California County (Generic)"
    permit_type := "Residential Solar Permit"
    requirements := ["Solar system design plans",
      "Electrical diagram",
      "Building department application",
      "Utility notification form"]
    fees := 300
    processing_time := "2-4 weeks"
    contact := "Local building department" }

/-- The static `JURISDICTION_RULES` table. -/
def JURISDICTION_RULES : List (String × JurisdictionRule) :=
  [("los_angeles", losAngelesRule),
   ("san_francisco", sanFranciscoRule),
   ("california_default", californiaDefaultRule)]

/-- The structured content of the JSON object returned by
`classify_jurisdiction_tool`; `jurisdiction_info` is an `Option` because
Python's `JURISDICTION_RULES[jurisdiction]` would raise on a missing key. -/
structure ClassifyOutput where
  address : String
  classified_jurisdiction : String
  jurisdiction_info : Option JurisdictionRule
deriving DecidableEq, Repr

/-- The jurisdiction id chosen by `classify_jurisdiction_tool`
(src/main.py lines 167-174). -/
def classify_jurisdiction_id (address : String) : String :=
  let address_lower := toLowerStr address
  if strContains address_lower "los angeles" || strContains address_lower "la" then
    "los_angeles"
  else if strContains address_lower "san francisco" || strContains address_lower "sf" then
    "san_francisco"
  else
    "california_default"

/-- Model of `classify_jurisdiction_tool` (src/main.py lines 163-182). -/
def classify_jurisdiction_tool (address : String) : ClassifyOutput :=
  { address := address
    classified_jurisdiction := classify_jurisdiction_id address
    jurisdiction_info := dlookup (classify_jurisdiction_id address) JURISDICTION_RULES }

/-- Model of `extract_location_from_address` (src/main.py lines 310-319). -/
def extract_location_from_address (address : String) : String :=
  let address_lower := toLowerStr address
  if strContains address_lower "los angeles" || strContains address_lower "la" then
    "Los Angeles California"
  else if strContains address_lower "san francisco" || strContains address_lower "sf" then
    "San Francisco California"
  else
    "California"

/-- The `PERMIT_TEMPLATE` dict (src/main.py lines 145-161). -/
def PERMIT_TEMPLATE : List (String × JValue) :=
  [("applicant_name", .str ""),
   ("property_address", .str ""),
   ("jurisdiction", .str ""),
   ("permit_type", .str ""),
   ("system_size_kw", .str ""),
   ("panel_count", .str ""),
   ("inverter_type", .str ""),
   ("installation_company", .str ""),
   ("contractor_license", .str ""),
   ("estimated_cost", .str ""),
   ("requirements_checklist", .arr []),
   ("fees", .num 0),
   ("processing_time", .str ""),
   ("submission_date", .str ""),
   ("status", .str "Draft")]

/-- Python dict assignment `d[k] = v` on an association list: replace the
first binding of `k` in place, or append a new binding. -/
def dset : List (String × JValue) → String → JValue → List (String × JValue)
  | [], k, v => [(k, v)]
  | (k', v') :: rest, k, v =>
      if k' = k then (k, v) :: rest else (k', v') :: dset rest k v

/-- Python `permit_form.update({k: v for k, v in details.items() if k in permit_form})`:
assign, in order, each detail binding whose key already exists in the form. -/
def mergeKnown (form details : List (String × JValue)) : List (String × JValue) :=
  (details.filter (fun kv => (dlookup kv.1 form).isSome)).foldl
    (fun d kv => dset d kv.1 kv.2) form

/-- The permit form after the seven fixed overwrites of
`generate_permit_form_tool` (src/main.py lines 207-215), before the
system-details merge. -/
def permit_form_base (address : String) (jn pt reqs fees ptime : JValue) :
    List (String × JValue) :=
  dset (dset (dset (dset (dset (dset (dset PERMIT_TEMPLATE
    "property_address" (.str address))
    "jurisdiction" jn)
    "permit_type" pt)
    "requirements_checklist" reqs)
    "fees" fees)
    "processing_time" ptime)
    "submission_date" (.str "2024-07-18")

/-- The text normalization of `_extract_json_from_text` (src/main.py lines
189-193): strip the text, then strip an optional surrounding code fence
(`text[7:-3]`, resp. `text[3:-3]`, is `drop`-then-`take` on codepoints). -/
def strip_code_fences (text : String) : String :=
  let t := pyStripChars text.toList
  if "```json".toList.isPrefixOf t && "```".toList.isSuffixOf t then
    String.mk (pyStripChars ((t.drop 7).take (t.length - 10)))
  else if "```".toList.isPrefixOf t && "```".toList.isSuffixOf t then
    String.mk (pyStripChars ((t.drop 3).take (t.length - 6)))
  else String.mk t

/-- Model of `_extract_json_from_text` (src/main.py lines 188-199): strip the text and
an optional surrounding code fence, parse with `loads`, and degrade to the
empty dict `{}` on a decode failure. -/
def extract_json_from_text (loads : String → Option JValue) (text : String) : JValue :=
  match loads (strip_code_fences text) with
  | some v => v
  | none => .obj []

/-- The observable result of `generate_permit_form_tool`: either the error
string of src/main.py line 204, or the returned JSON object, abstracted to
its `permit_form` and `jurisdiction_contact` fields (the four `next_steps`
strings are fixed text interpolating `fees`/`processing_time` and carry no
further structure). -/
inductive PermitToolOutput where
  | error (msg : String)
  | ok (permit_form : List (String × JValue)) (jurisdiction_contact : JValue)
deriving Repr

/-- The error string returned for invalid jurisdiction data. -/
def permitToolErrorMsg : String :=
  "Error: Invalid or unparseable jurisdiction data provided to generate_permit_form_tool."

/-- The tail of `generate_permit_form_tool` once `rules = jurisdiction_info["jurisdiction_info"]`
is in hand (src/main.py lines 206-230): Python raises (modelled `none`) when
`rules` is not a dict, when one of its five required keys or `contact` is
missing, or when the parsed system details are not a dict. -/
def generate_permit_form_body (loads : String → Option JValue) (address : String)
    (system_details : String) (rules : JValue) : Option PermitToolOutput :=
  match rules with
  | .obj r =>
    match dlookup "jurisdiction_name" r, dlookup "permit_type" r,
          dlookup "requirements" r, dlookup "fees" r, dlookup "processing_time" r with
    | some jn, some pt, some reqs, some fees, some ptime =>
      let form := permit_form_base address jn pt reqs fees ptime
      let merged : Option (List (String × JValue)) :=
        if system_details ≠ "" then
          match extract_json_from_text loads system_details with
          | .obj details => some (mergeKnown form details)
          | _ => none
        else some form
      match merged, dlookup "contact" r with
      | some form', some contact => some (.ok form' contact)
      | _, _ => none
    | _, _, _, _, _ => none
  | _ => none

/-- Model of `generate_permit_form_tool` (src/main.py lines 184-230): parse the
jurisdiction blob, return the error string when it is falsy or lacks the
`"jurisdiction_info"` key (`if not jurisdiction_info or "jurisdiction_info"
not in jurisdiction_info`), raise (`none`) when the membership test or a
later access raises, and otherwise build the form. -/
def generate_permit_form_tool (loads : String → Option JValue)
    (address jurisdiction_data system_details : String) : Option PermitToolOutput :=
  let ji := extract_json_from_text loads jurisdiction_data
  match ji with
  | .obj jiFields =>
      if jiFields.isEmpty then some (.error permitToolErrorMsg)
      else
        match dlookup "jurisdiction_info" jiFields with
        | none => some (.error permitToolErrorMsg)
        | some rules => generate_permit_form_body loads address system_details rules
  | .arr l =>
      if l.isEmpty then some (.error permitToolErrorMsg)
      else if l.any (fun v => match v with | .str s => s = "jurisdiction_info" | _ => false) then
        none
      else some (.error permitToolErrorMsg)
  | .str s =>
      if s = "" then some (.error permitToolErrorMsg)
      else if strContains s "jurisdiction_info" then none
      else some (.error permitToolErrorMsg)
  | v => if pyTruthy v then none else some (.error permitToolErrorMsg)

/-- Round-half-to-even to an integer (Python's `round` tie-breaking),
idealized on exact rationals. -/
def halfEvenRound (q : ℚ) : ℤ :=
  let f : ℤ := q.num.fdiv (q.den : ℤ)
  let r : ℚ := q - (f : ℚ)
  if r < 1/2 then f
  else if 1/2 < r then f + 1
  else if f % 2 = 0 then f else f + 1

/-- Python `round(q, 1)`. -/
def pyRound1 (q : ℚ) : ℚ :=
  ((halfEvenRound (q * 10) : ℚ)) / 10

/-- The formula `permit_score = max(0, 100 - (fees / 10) - (processing_weeks * 5))`
(src/main.py line 338); a non-numeric `fees` raises in the formula, which the
bare `except` turns into the flat 60. -/
def permit_score_from (fees : JValue) (weeks : Int) : ℚ :=
  match asNumber fees with
  | some f => max 0 (100 - f / 10 - (weeks : ℚ) * 5)
  | none => 60

/-- The permit half of `calculate_feasibility_score` (src/main.py lines
324-341) on an already-parsed `permitting_data`. Returns
`(permit_score, fees, processing_weeks)` as they stand when the `try` block
ends or its exception is caught: `fees`/`processing_weeks` start at
`500`/`4`; `fees` and `processing_time` are read from `permit_form` with
defaults `500`/`"4 weeks"`; `processing_weeks` is re-read with
`int(processing_time.split('-')[0])` only when `'week' in processing_time`;
any raise inside the block yields `permit_score = 60` with the variables as
last assigned. -/
def permit_part (pd : JValue) : ℚ × JValue × Int :=
  match pd with
  | .obj fields =>
    match dlookup "permit_form" fields with
    | none => (permit_score_from (.num 500) 4, .num 500, 4)
    | some pf =>
      match pf with
      | .obj pfFields =>
        let fees := (dlookup "fees" pfFields).getD (.num 500)
        let ptimeV := (dlookup "processing_time" pfFields).getD (.str "4 weeks")
        match pyInOp "week" ptimeV with
        | none => (60, fees, 4)
        | some false => (permit_score_from fees 4, fees, 4)
        | some true =>
          match ptimeV with
          | .str ptime =>
            match pyInt (pySplitHead ptime) with
            | none => (60, fees, 4)
            | some w => (permit_score_from fees w, fees, w)
          | _ => (60, fees, 4)
      | _ => (60, .num 500, 4)
  | .arr l =>
      if l.any (fun v => match v with | .str s => s = "permit_form" | _ => false) then
        (60, .num 500, 4)
      else (permit_score_from (.num 500) 4, .num 500, 4)
  | .str s =>
      if strContains s "permit_form" then (60, .num 500, 4)
      else (permit_score_from (.num 500) 4, .num 500, 4)
  | _ => (60, .num 500, 4)

/-- The research half of `calculate_feasibility_score` (src/main.py lines
343-351) on an already-parsed `research_data`:
`max(20, min(80, 70 - total_articles * 2))` with `total_articles`
defaulting to `0`; any raise (non-dict input, non-numeric value) yields 60. -/
def research_part (rd : JValue) : ℚ :=
  match rd with
  | .obj fields =>
    match asNumber ((dlookup "total_articles" fields).getD (.num 0)) with
    | some n => max 20 (min 80 (70 - n * 2))
    | none => 60
  | _ => 60

/-- The dict returned by `calculate_feasibility_score` (src/main.py lines
365-373). `fees` is a `JValue` because the code returns whatever
`permit_form.get('fees', 500)` produced, numeric or not. -/
structure FeasibilityResult where
  overall_score : ℚ
  decision : String
  risk_level : String
  permit_score : ℚ
  research_score : ℚ
  fees : JValue
  processing_weeks : Int
deriving Repr

/-- Model of `calculate_feasibility_score` (src/main.py lines 321-373) on
already-parsed inputs (the `isinstance(_, str)`/`json.loads` preamble is the
identity on parsed values). -/
def calculate_feasibility_score (pd rd : JValue) : FeasibilityResult :=
  let p := permit_part pd
  let permit_score := p.1
  let research_score := research_part rd
  let overall_score := permit_score * (6/10) + research_score * (4/10)
  let dr : String × String :=
    if overall_score ≥ 70 then ("GO", "Low")
    else if overall_score ≥ 50 then ("CONDITIONAL GO", "Medium")
    else ("NO-GO", "High")
  { overall_score := pyRound1 overall_score
    decision := dr.1
    risk_level := dr.2
    permit_score := pyRound1 permit_score
    research_score := pyRound1 research_score
    fees := p.2.1
    processing_weeks := p.2.2 }
/-- A concrete article list with a duplicated title and a missing title,
used by witnesses. -/
def sampleArticles : List Article :=
  [⟨some "A", "x"⟩, ⟨some "A", "y"⟩, ⟨none, "z"⟩]

/-- A concrete jurisdiction-rules object used by witnesses. -/
def permitMergeSampleRules : JValue :=
  .obj [("jurisdiction_name", .str "City of Los Angeles"),
    ("permit_type", .str "Solar Installation Permit"),
    ("requirements", .arr []),
    ("fees", .num 500),
    ("processing_time", .str "4-6 weeks"),
    ("contact", .str "ladbs.lacity.org")]

/-- A concrete `loads` stub used by witnesses: parses the blob "JD" to a
valid jurisdiction object and the blob "SD" to system details with one
recognized and one unrecognized key. -/
def permitMergeSampleLoads : String → Option JValue :=
  fun s =>
    if s = "JD" then some (.obj [("jurisdiction_info", permitMergeSampleRules)])
    else if s = "SD" then
      some (.obj [("system_size_kw", .str "7kW"), ("unknown_key", .str "x")])
    else none

/-- First-of on optional values: `dfirst a b` is `a` when present, else `b`
(used to state dict-merge lookups). -/
def dfirst {α : Type} (a b : Option α) : Option α :=
  match a with
  | some v => some v
  | none => b

/-! ## Lemmas about the deduplication loop -/

theorem dedupAux_append (xs ys : List Article) : ∀ seen,
    dedupAux seen (xs ++ ys) = dedupAux seen xs ++ dedupAux (seenAfter seen xs) ys := by
  induction xs with
  | nil => intro seen; simp [dedupAux, seenAfter]
  | cons a rest ih =>
      intro seen
      by_cases h : articleTitle a ∉ seen ∧ articleTitle a ≠ ""
      · simp only [List.cons_append, dedupAux, seenAfter, if_pos h, List.append_eq]
        rw [ih]
      · simp only [List.cons_append, dedupAux, seenAfter, if_neg h, List.append_eq]
        rw [ih]

theorem mem_seenAfter (xs : List Article) : ∀ seen x, x ∈ seen → x ∈ seenAfter seen xs := by
  induction xs with
  | nil => intro seen x hx; simpa [seenAfter] using hx
  | cons a rest ih =>
      intro seen x hx
      by_cases h : articleTitle a ∉ seen ∧ articleTitle a ≠ ""
      · simp only [seenAfter, if_pos h]
        exact ih _ _ (List.mem_cons_of_mem _ hx)
      · simp only [seenAfter, if_neg h]
        exact ih _ _ hx

theorem title_mem_seenAfter (xs : List Article) : ∀ seen (a : Article), a ∈ xs →
    articleTitle a ≠ "" → articleTitle a ∈ seenAfter seen xs := by
  induction xs with
  | nil => intro seen a ha; exact absurd ha (List.not_mem_nil a)
  | cons b rest ih =>
      intro seen a ha hne
      rcases List.mem_cons.mp ha with rfl | ha'
      · by_cases h : articleTitle a ∉ seen ∧ articleTitle a ≠ ""
        · simp only [seenAfter, if_pos h]
          exact mem_seenAfter _ _ _ (List.mem_cons_self _ _)
        · simp only [seenAfter, if_neg h]
          have hmem : articleTitle a ∈ seen := by
            by_contra hc
            exact h ⟨hc, hne⟩
          exact mem_seenAfter _ _ _ hmem
      · by_cases h : articleTitle b ∉ seen ∧ articleTitle b ≠ ""
        · simp only [seenAfter, if_pos h]
          exact ih _ _ ha' hne
        · simp only [seenAfter, if_neg h]
          exact ih _ _ ha' hne

theorem dedupAux_eq_nil (xs : List Article) : ∀ s,
    (∀ a ∈ xs, articleTitle a = "" ∨ articleTitle a ∈ s) → dedupAux s xs = [] := by
  induction xs with
  | nil => intro s _; rfl
  | cons a rest ih =>
      intro s hall
      have ha := hall a (List.mem_cons_self _ _)
      have hcond : ¬(articleTitle a ∉ s ∧ articleTitle a ≠ "") := by
        rcases ha with h | h
        · exact fun hc => hc.2 h
        · exact fun hc => hc.1 h
      simp only [dedupAux, if_neg hcond]
      exact ih s (fun b hb => hall b (List.mem_cons_of_mem _ hb))

theorem dedupAux_sublist (xs : List Article) : ∀ seen,
    List.Sublist (dedupAux seen xs) xs := by
  induction xs with
  | nil => intro seen; simp [dedupAux]
  | cons a rest ih =>
      intro seen
      by_cases h : articleTitle a ∉ seen ∧ articleTitle a ≠ ""
      · simp only [dedupAux, if_pos h]
        exact List.Sublist.cons₂ a (ih _)
      · simp only [dedupAux, if_neg h]
        exact List.Sublist.cons a (ih _)

theorem mem_dedupAux (xs : List Article) : ∀ seen (a : Article), a ∈ dedupAux seen xs →
    articleTitle a ∉ seen ∧ articleTitle a ≠ "" ∧
      xs.find? (fun b => articleTitle b == articleTitle a) = some a := by
  induction xs with
  | nil => intro seen a ha; exact absurd ha (List.not_mem_nil a)
  | cons b rest ih =>
      intro seen a ha
      by_cases h : articleTitle b ∉ seen ∧ articleTitle b ≠ ""
      · rw [dedupAux, if_pos h] at ha
        rcases List.mem_cons.mp ha with rfl | ha'
        · exact ⟨h.1, h.2, by
            rw [List.find?_cons_of_pos _ (by simp)]⟩
        · obtain ⟨h1, h2, h3⟩ := ih _ _ ha'
          have hba : articleTitle b ≠ articleTitle a := by
            intro he
            exact h1 (he ▸ List.mem_cons_self _ _)
          refine ⟨fun hc => h1 (List.mem_cons_of_mem _ hc), h2, ?_⟩
          rw [List.find?_cons_of_neg _ (by simpa using hba), h3]
      · rw [dedupAux, if_neg h] at ha
        obtain ⟨h1, h2, h3⟩ := ih _ _ ha
        have hbmem : articleTitle b ∈ seen ∨ articleTitle b = "" := by
          by_contra hc
          push_neg at hc
          exact h ⟨hc.1, hc.2⟩
        have hba : articleTitle b ≠ articleTitle a := by
          intro he
          rcases hbmem with hm | hm
          · exact h1 (he ▸ hm)
          · exact h2 (he ▸ hm)
        refine ⟨h1, h2, ?_⟩
        rw [List.find?_cons_of_neg _ (by simpa using hba), h3]

/-- C6: the title-based deduplication of the research tool is idempotent and
order-preserving: deduplicating a list concatenated with itself yields the
same unique sequence as deduplicating it once, the output is a subsequence of
the input, and every kept article has a nonempty title and is the first
occurrence of that title in the input. -/
theorem dedup_idempotent_first_wins (xs : List Article) :
    dedupArticles (xs ++ xs) = dedupArticles xs ∧
    List.Sublist (dedupArticles xs) xs ∧
    ∀ a ∈ dedupArticles xs, articleTitle a ≠ "" ∧
      xs.find? (fun b => articleTitle b == articleTitle a) = some a := by
  refine ⟨?_, dedupAux_sublist xs [], ?_⟩
  · unfold dedupArticles
    rw [dedupAux_append]
    have : dedupAux (seenAfter [] xs) xs = [] := by
      refine dedupAux_eq_nil xs _ (fun a ha => ?_)
      by_cases he : articleTitle a = ""
      · exact Or.inl he
      · exact Or.inr (title_mem_seenAfter xs [] a ha he)
    rw [this, List.append_nil]
  · intro a ha
    obtain ⟨_, h2, h3⟩ := mem_dedupAux xs [] a ha
    exact ⟨h2, h3⟩

/-- Witness for C6 at a concrete article list with a duplicate title and a
missing title. -/
theorem dedup_idempotent_first_wins_witness :
    dedupArticles (sampleArticles ++ sampleArticles) = dedupArticles sampleArticles ∧
    List.Sublist (dedupArticles sampleArticles) sampleArticles ∧
    (⟨some "A", "x"⟩ : Article) ∈ dedupArticles sampleArticles ∧
    articleTitle ⟨some "A", "x"⟩ ≠ "" ∧
    sampleArticles.find?
        (fun b => articleTitle b == articleTitle ⟨some "A", "x"⟩) = some ⟨some "A", "x"⟩ := by
  refine ⟨(dedup_idempotent_first_wins _).1, (dedup_idempotent_first_wins _).2.1, by decide, ?_, ?_⟩
  · exact ((dedup_idempotent_first_wins sampleArticles).2.2 _ (by decide)).1
  · exact ((dedup_idempotent_first_wins sampleArticles).2.2 _ (by decide)).2

/-! ## The research tool (C7) and jurisdiction classifier (C5, C10) -/

theorem foldl_append_eq_flatten (l : List (List Article)) : ∀ acc,
    l.foldl (fun a b => a ++ b) acc = acc ++ l.flatten := by
  induction l with
  | nil => intro acc; simp
  | cons x rest ih =>
      intro acc
      simp only [List.foldl_cons, ih, List.flatten_cons, List.append_assoc]

/-- C7 counterexample: for a given empty-string location the tool returns
`"General"` as `search_location` instead of echoing the given location. -/
theorem research_tool_echo_counterexample :
    (site_impact_research_tool (some "") []).search_location = "General" ∧
    ("General" : String) ≠ "" := by
  exact ⟨rfl, by decide⟩

/-- C7 (amended): the research tool flattens the per-phrase article lists in
order, deduplicates by exact title, and returns the first 10 unique articles
and the total unique count; `search_location` echoes the given location
except that `None` and the empty string both yield `"General"`. -/
theorem research_tool_output (location : Option String)
    (searchResults : List (List Article)) :
    (site_impact_research_tool location searchResults).articles
        = (dedupArticles searchResults.flatten).take 10 ∧
    (site_impact_research_tool location searchResults).total_articles
        = (dedupArticles searchResults.flatten).length ∧
    (∀ s, location = some s → s ≠ "" →
        (site_impact_research_tool location searchResults).search_location = s) ∧
    ((location = none ∨ location = some "") →
        (site_impact_research_tool location searchResults).search_location = "General") := by
  have hf : searchResults.foldl (fun a b => a ++ b) [] = searchResults.flatten := by
    rw [foldl_append_eq_flatten, List.nil_append]
  refine ⟨?_, ?_, ?_, ?_⟩
  · simp only [site_impact_research_tool, hf]
  · simp only [site_impact_research_tool, hf]
  · intro s hs hne
    simp [site_impact_research_tool, pyOrStr, hs, hne]
  · intro h
    rcases h with h | h <;> simp [site_impact_research_tool, pyOrStr, h]

/-- Witness for C7's amended theorem at concrete inputs. -/
theorem research_tool_output_witness :
    (site_impact_research_tool (some "Los Angeles California") [sampleArticles, sampleArticles]).articles
        = (dedupArticles ([sampleArticles, sampleArticles] : List (List Article)).flatten).take 10 ∧
    (site_impact_research_tool (some "Los Angeles California") [sampleArticles, sampleArticles]).total_articles
        = (dedupArticles ([sampleArticles, sampleArticles] : List (List Article)).flatten).length ∧
    ((some "Los Angeles California" : Option String) = some "Los Angeles California" ∧
      ("Los Angeles California" : String) ≠ "") ∧
    (site_impact_research_tool (some "Los Angeles California") [sampleArticles, sampleArticles]).search_location
        = "Los Angeles California" ∧
    (site_impact_research_tool none [sampleArticles]).search_location = "General" := by
  refine ⟨(research_tool_output _ _).1, (research_tool_output _ _).2.1, ⟨rfl, by decide⟩, ?_, ?_⟩
  · exact (research_tool_output (some "Los Angeles California") [sampleArticles, sampleArticles]).2.2.1
      "Los Angeles California" rfl (by decide)
  · exact (research_tool_output none [sampleArticles]).2.2.2 (Or.inl rfl)

/-- C5: the jurisdiction classifier is total and pure: for every address it
returns one of the three jurisdiction ids, echoes the address, and pairs the
id with that id's full rule record from `JURISDICTION_RULES`; the three
spec examples classify as stated. -/
theorem classify_jurisdiction_total (address : String) :
    ((classify_jurisdiction_tool address).classified_jurisdiction = "los_angeles" ∨
      (classify_jurisdiction_tool address).classified_jurisdiction = "san_francisco" ∨
      (classify_jurisdiction_tool address).classified_jurisdiction = "california_default") ∧
    (classify_jurisdiction_tool address).address = address ∧
    (classify_jurisdiction_tool address).jurisdiction_info =
      dlookup (classify_jurisdiction_tool address).classified_jurisdiction JURISDICTION_RULES ∧
    (classify_jurisdiction_tool address).jurisdiction_info.isSome = true ∧
    classify_jurisdiction_tool "123 Main St, Los Angeles, CA" =
      ⟨"123 Main St, Los Angeles, CA", "los_angeles", some losAngelesRule⟩ ∧
    classify_jurisdiction_tool "1 Market St, San Francisco" =
      ⟨"1 Market St, San Francisco", "san_francisco", some sanFranciscoRule⟩ ∧
    classify_jurisdiction_tool "Anytown, Nowhere" =
      ⟨"Anytown, Nowhere", "california_default", some californiaDefaultRule⟩ := by
  have hid : (classify_jurisdiction_tool address).classified_jurisdiction = "los_angeles" ∨
      (classify_jurisdiction_tool address).classified_jurisdiction = "san_francisco" ∨
      (classify_jurisdiction_tool address).classified_jurisdiction = "california_default" := by
    simp only [classify_jurisdiction_tool, classify_jurisdiction_id]
    split_ifs <;> simp
  refine ⟨hid, rfl, rfl, ?_, by decide, by decide, by decide⟩
  rcases hid with h | h | h <;>
    · rw [show (classify_jurisdiction_tool address).jurisdiction_info =
          dlookup (classify_jurisdiction_tool address).classified_jurisdiction JURISDICTION_RULES from rfl, h]
      decide

/-- C10: in both the classifier and the location extractor the Los Angeles
token test runs first, so an address containing both a Los Angeles token and
a San Francisco token classifies as `los_angeles` and extracts
`"Los Angeles California"`. -/
theorem la_test_precedes_sf_test (address : String)
    (hLA : strContains (toLowerStr address) "los angeles" = true ∨
      strContains (toLowerStr address) "la" = true)
    (_hSF : strContains (toLowerStr address) "san francisco" = true ∨
      strContains (toLowerStr address) "sf" = true) :
    (classify_jurisdiction_tool address).classified_jurisdiction = "los_angeles" ∧
    extract_location_from_address address = "Los Angeles California" := by
  have h : (strContains (toLowerStr address) "los angeles" ||
      strContains (toLowerStr address) "la") = true := by
    rcases hLA with h | h <;> simp [h]
  constructor
  · simp [classify_jurisdiction_tool, classify_jurisdiction_id, h]
  · simp [extract_location_from_address, h]

/-- Witness for C10: the address contains `"la"` (inside `"Clara"`) and
`"san francisco"`, and still classifies as Los Angeles. -/
theorem la_test_precedes_sf_test_witness :
    strContains (toLowerStr "Santa Clara St, San Francisco") "la" = true ∧
    strContains (toLowerStr "Santa Clara St, San Francisco") "san francisco" = true ∧
    ((classify_jurisdiction_tool "Santa Clara St, San Francisco").classified_jurisdiction
        = "los_angeles" ∧
      extract_location_from_address "Santa Clara St, San Francisco"
        = "Los Angeles California") := by
  refine ⟨by decide, by decide, ?_⟩
  exact la_test_precedes_sf_test "Santa Clara St, San Francisco"
    (Or.inr (by decide)) (Or.inl (by decide))

/-! ## The feasibility scorer (C1-C4) -/

/-- C1: for every pair of parsed inputs, the returned `overall_score` is
`permit_score * 0.6 + research_score * 0.4` rounded to one decimal, and the
decision/risk pair is obtained by thresholding the (unrounded) overall
score at 70 and 50; in particular permit 30 and research 70 give overall
46.0 with decision NO-GO and risk High. -/
theorem feasibility_overall_and_thresholds (pd rd : JValue) :
    (calculate_feasibility_score pd rd).overall_score
        = pyRound1 ((permit_part pd).1 * (6/10) + research_part rd * (4/10)) ∧
    ((permit_part pd).1 * (6/10) + research_part rd * (4/10) ≥ 70 →
      (calculate_feasibility_score pd rd).decision = "GO" ∧
      (calculate_feasibility_score pd rd).risk_level = "Low") ∧
    (¬ (permit_part pd).1 * (6/10) + research_part rd * (4/10) ≥ 70 →
      (permit_part pd).1 * (6/10) + research_part rd * (4/10) ≥ 50 →
      (calculate_feasibility_score pd rd).decision = "CONDITIONAL GO" ∧
      (calculate_feasibility_score pd rd).risk_level = "Medium") ∧
    (¬ (permit_part pd).1 * (6/10) + research_part rd * (4/10) ≥ 50 →
      (calculate_feasibility_score pd rd).decision = "NO-GO" ∧
      (calculate_feasibility_score pd rd).risk_level = "High") ∧
    ((permit_part pd).1 = 30 → research_part rd = 70 →
      (calculate_feasibility_score pd rd).overall_score = 46 ∧
      (calculate_feasibility_score pd rd).decision = "NO-GO" ∧
      (calculate_feasibility_score pd rd).risk_level = "High") := by
  refine ⟨rfl, ?_, ?_, ?_, ?_⟩
  · intro h
    constructor <;> simp [calculate_feasibility_score, if_pos h]
  · intro h1 h2
    constructor <;> simp [calculate_feasibility_score, if_neg h1, if_pos h2]
  · intro h2
    have h1 : ¬ (permit_part pd).1 * (6/10) + research_part rd * (4/10) ≥ 70 := by
      intro hc
      exact h2 (le_trans (by norm_num) hc)
    constructor <;> simp [calculate_feasibility_score, if_neg h1, if_neg h2]
  · intro hp hr
    have h2 : ¬ (permit_part pd).1 * (6/10) + research_part rd * (4/10) ≥ 50 := by
      rw [hp, hr]; norm_num
    have h1 : ¬ (permit_part pd).1 * (6/10) + research_part rd * (4/10) ≥ 70 := by
      rw [hp, hr]; norm_num
    refine ⟨?_, ?_, ?_⟩
    · show pyRound1 _ = _
      rw [hp, hr]
      norm_num [pyRound1, halfEvenRound]
    · simp [calculate_feasibility_score, if_neg h1, if_neg h2]
    · simp [calculate_feasibility_score, if_neg h1, if_neg h2]

/-- Witness for C1: an empty permitting dict and empty research dict give
permit 30, research 70, overall 46.0, NO-GO, High; a zero-fee zero-week
permit form gives an overall of 88 whose thresholding yields GO, Low. -/
theorem feasibility_overall_and_thresholds_witness :
    (permit_part (.obj [])).1 = 30 ∧ research_part (.obj []) = 70 ∧
    ((calculate_feasibility_score (.obj []) (.obj [])).overall_score = 46 ∧
      (calculate_feasibility_score (.obj []) (.obj [])).decision = "NO-GO" ∧
      (calculate_feasibility_score (.obj []) (.obj [])).risk_level = "High") ∧
    ((permit_part (.obj [("permit_form",
        .obj [("fees", .num 0), ("processing_time", .str "0-4 weeks")])])).1 * (6/10)
        + research_part (.obj []) * (4/10) ≥ 70) ∧
    ((calculate_feasibility_score (.obj [("permit_form",
        .obj [("fees", .num 0), ("processing_time", .str "0-4 weeks")])]) (.obj [])).decision = "GO" ∧
      (calculate_feasibility_score (.obj [("permit_form",
        .obj [("fees", .num 0), ("processing_time", .str "0-4 weeks")])]) (.obj [])).risk_level = "Low") := by
  have hp30 : (permit_part (JValue.obj [])).1 = 30 := by
    norm_num [permit_part, dlookup, permit_score_from, asNumber]
  have hr70 : research_part (JValue.obj []) = 70 := by
    norm_num [research_part, dlookup, asNumber]
  have hp100 : (permit_part (JValue.obj [("permit_form",
      JValue.obj [("fees", JValue.num 0), ("processing_time", JValue.str "0-4 weeks")])])).1
      = 100 := by
    have hpf : dlookup "permit_form"
        [("permit_form",
          JValue.obj [("fees", JValue.num 0), ("processing_time", JValue.str "0-4 weeks")])]
        = some (JValue.obj [("fees", JValue.num 0),
            ("processing_time", JValue.str "0-4 weeks")]) := rfl
    have hfe : (dlookup "fees"
        [("fees", JValue.num 0), ("processing_time", JValue.str "0-4 weeks")]).getD
          (JValue.num 500) = JValue.num 0 := rfl
    have hptv : (dlookup "processing_time"
        [("fees", JValue.num 0), ("processing_time", JValue.str "0-4 weeks")]).getD
          (JValue.str "4 weeks") = JValue.str "0-4 weeks" := rfl
    norm_num [permit_part, hpf, hfe, hptv, pyInOp, permit_score_from, asNumber,
      (by decide : strContains "0-4 weeks" "week" = true),
      (by decide : pyInt (pySplitHead "0-4 weeks") = some 0)]
  have hge : (permit_part (JValue.obj [("permit_form",
      JValue.obj [("fees", JValue.num 0),
        ("processing_time", JValue.str "0-4 weeks")])])).1 * (6/10)
      + research_part (JValue.obj []) * (4/10) ≥ 70 := by
    rw [hp100, hr70]; norm_num
  exact ⟨hp30, hr70,
    (feasibility_overall_and_thresholds (.obj []) (.obj [])).2.2.2.2 hp30 hr70,
    hge,
    (feasibility_overall_and_thresholds _ (.obj [])).2.1 hge⟩

/-- C2: whenever `permit_form` is a dict giving numeric fees `f` and a
processing-time string whose leading segment parses to weeks `w`, the permit
score is `max(0, 100 - f/10 - w*5)`, and the rounded value is what
`calculate_feasibility_score` reports as `permit_score`. -/
theorem permit_score_formula (rd : JValue) (fields pfFields : List (String × JValue))
    (f : ℚ) (s : String) (w : Int)
    (hpf : dlookup "permit_form" fields = some (.obj pfFields))
    (hfees : (dlookup "fees" pfFields).getD (.num 500) = .num f)
    (hpt : (dlookup "processing_time" pfFields).getD (.str "4 weeks") = .str s)
    (hwk : strContains s "week" = true)
    (hw : pyInt (pySplitHead s) = some w) :
    (permit_part (.obj fields)).1 = max 0 (100 - f / 10 - (w : ℚ) * 5) ∧
    (calculate_feasibility_score (.obj fields) rd).permit_score
        = pyRound1 (max 0 (100 - f / 10 - (w : ℚ) * 5)) := by
  have h1 : (permit_part (.obj fields)).1 = max 0 (100 - f / 10 - (w : ℚ) * 5) := by
    simp only [permit_part, hpf, hfees, hpt, pyInOp, hwk, hw, permit_score_from, asNumber]
  exact ⟨h1, by simp only [calculate_feasibility_score, h1]⟩

/-- Witness for C2: fees 500 and processing time "4-6 weeks" (weeks 4)
give permit score 30.0. -/
theorem permit_score_formula_witness :
    dlookup "permit_form" [("permit_form",
        JValue.obj [("fees", JValue.num 500), ("processing_time", JValue.str "4-6 weeks")])]
      = some (.obj [("fees", JValue.num 500), ("processing_time", JValue.str "4-6 weeks")]) ∧
    strContains "4-6 weeks" "week" = true ∧
    pyInt (pySplitHead "4-6 weeks") = some 4 ∧
    (permit_part (.obj [("permit_form",
        JValue.obj [("fees", JValue.num 500), ("processing_time", JValue.str "4-6 weeks")])])).1
      = max 0 (100 - (500 : ℚ) / 10 - (4 : ℚ) * 5) ∧
    (calculate_feasibility_score (.obj [("permit_form",
        JValue.obj [("fees", JValue.num 500), ("processing_time", JValue.str "4-6 weeks")])])
        (.obj [])).permit_score = 30 := by
  have h := permit_score_formula (JValue.obj [])
    [("permit_form",
      JValue.obj [("fees", JValue.num 500), ("processing_time", JValue.str "4-6 weeks")])]
    [("fees", JValue.num 500), ("processing_time", JValue.str "4-6 weeks")]
    500 "4-6 weeks" 4 rfl rfl rfl (by decide) (by decide)
  refine ⟨rfl, by decide, by decide, h.1, ?_⟩
  rw [h.2]
  norm_num [pyRound1, halfEvenRound]

/-- C3: the research score is `max(20, min(80, 70 - total_articles*2))` with
`total_articles` defaulting to 0 (hence 70 when absent), it is clamped inside
the interval 20 to 80, a non-numeric `total_articles` yields the flat 60, and
a non-dict research input yields the flat 60. -/
theorem research_score_formula (pd : JValue) (fields : List (String × JValue)) :
    (∀ n : ℚ, (dlookup "total_articles" fields).getD (.num 0) = .num n →
      research_part (.obj fields) = max 20 (min 80 (70 - n * 2)) ∧
      20 ≤ research_part (.obj fields) ∧ research_part (.obj fields) ≤ 80 ∧
      (calculate_feasibility_score pd (.obj fields)).research_score
          = pyRound1 (max 20 (min 80 (70 - n * 2)))) ∧
    (dlookup "total_articles" fields = none → research_part (.obj fields) = 70) ∧
    (∀ v, dlookup "total_articles" fields = some v → asNumber v = none →
      research_part (.obj fields) = 60) ∧
    (∀ rd : JValue, (∀ g, rd ≠ JValue.obj g) → research_part rd = 60) := by
  refine ⟨?_, ?_, ?_, ?_⟩
  · intro n hn
    have h1 : research_part (.obj fields) = max 20 (min 80 (70 - n * 2)) := by
      simp only [research_part, hn, asNumber]
    refine ⟨h1, ?_, ?_, by simp only [calculate_feasibility_score, h1]⟩
    · rw [h1]; exact le_max_left _ _
    · rw [h1]
      exact max_le (by norm_num) (min_le_left _ _)
  · intro h
    have : (dlookup "total_articles" fields).getD (.num 0) = JValue.num 0 := by
      rw [h]; rfl
    simp only [research_part, this, asNumber]
    norm_num
  · intro v hv hnum
    simp only [research_part, hv, Option.getD_some, hnum]
  · intro rd hrd
    cases rd with
    | obj g => exact absurd rfl (hrd g)
    | null => rfl
    | bool b => rfl
    | num q => rfl
    | str s => rfl
    | arr l => rfl

/-- Witness for C3: absent `total_articles` gives 70; 30 articles give 20;
a string-valued `total_articles` gives the flat 60; a non-dict input gives
the flat 60. -/
theorem research_score_formula_witness :
    (dlookup "total_articles" ([] : List (String × JValue))).getD (.num 0) = JValue.num 0 ∧
    research_part (.obj []) = 70 ∧
    (dlookup "total_articles" [("total_articles", JValue.num 30)]).getD (.num 0)
        = JValue.num 30 ∧
    research_part (.obj [("total_articles", JValue.num 30)]) = 20 ∧
    asNumber (JValue.str "many") = none ∧
    research_part (.obj [("total_articles", JValue.str "many")]) = 60 ∧
    research_part (.str "not a dict") = 60 := by
  refine ⟨rfl, ?_, rfl, ?_, rfl, ?_, ?_⟩
  · have := ((research_score_formula (.obj []) []).1 0 rfl).1
    rw [this]; norm_num
  · have := ((research_score_formula (.obj []) [("total_articles", JValue.num 30)]).1 30 rfl).1
    rw [this]; norm_num
  · exact (research_score_formula (.obj []) [("total_articles", JValue.str "many")]).2.2.1
      (JValue.str "many") rfl rfl
  · exact (research_score_formula (.obj []) []).2.2.2 (.str "not a dict") (fun g => by simp)

/-- C4 counterexample: for `permit_form = {fees: 0, processing_time: "several weeks"}`
the leading segment before the first hyphen is unparseable, and the code
resets `permit_score` to the flat 60 - not to the value
`max(0, 100 - 0/10 - 4*5) = 80` that a processing-weeks default of 4 would
give, as the claim states. -/
theorem processing_weeks_default_counterexample :
    (permit_part (JValue.obj [("permit_form",
        JValue.obj [("fees", JValue.num 0),
          ("processing_time", JValue.str "several weeks")])])).1 = 60 ∧
    ¬ (permit_part (JValue.obj [("permit_form",
        JValue.obj [("fees", JValue.num 0),
          ("processing_time", JValue.str "several weeks")])])).1
      = max 0 (100 - (0 : ℚ) / 10 - (4 : ℚ) * 5) := by
  have h60 : (permit_part (JValue.obj [("permit_form",
      JValue.obj [("fees", JValue.num 0),
        ("processing_time", JValue.str "several weeks")])])).1 = 60 := by
    have hpf : dlookup "permit_form"
        [("permit_form", JValue.obj [("fees", JValue.num 0),
          ("processing_time", JValue.str "several weeks")])]
        = some (JValue.obj [("fees", JValue.num 0),
            ("processing_time", JValue.str "several weeks")]) := rfl
    have hptv : (dlookup "processing_time"
        [("fees", JValue.num 0), ("processing_time", JValue.str "several weeks")]).getD
          (JValue.str "4 weeks") = JValue.str "several weeks" := rfl
    simp only [permit_part, hpf, hptv, pyInOp,
      (by decide : strContains "several weeks" "week" = true),
      (by decide : pyInt (pySplitHead "several weeks") = none)]
  refine ⟨h60, ?_⟩
  rw [h60]
  norm_num

/-- C4 (amended): with `permit_form` a dict, `fees` and `processing_time`
are read with defaults 500 and "4 weeks"; the weeks parse is attempted only
when the processing-time string contains "week" (otherwise `processing_weeks`
stays 4 and the formula runs); when the parse of the segment before the first
hyphen raises - as it does for any hyphen-free string, including the default
"4 weeks" used when `processing_time` is absent - `permit_score` is reset to
the flat 60 and the permit formula is skipped, with `processing_weeks`
remaining 4. -/
theorem permit_extraction_defaults (fields pfFields : List (String × JValue))
    (hpf : dlookup "permit_form" fields = some (.obj pfFields)) :
    (∀ s : String,
      (dlookup "processing_time" pfFields).getD (.str "4 weeks") = .str s →
      strContains s "week" = true → pyInt (pySplitHead s) = none →
      permit_part (.obj fields)
        = (60, (dlookup "fees" pfFields).getD (.num 500), 4)) ∧
    (∀ s : String,
      (dlookup "processing_time" pfFields).getD (.str "4 weeks") = .str s →
      strContains s "week" = false →
      permit_part (.obj fields)
        = (permit_score_from ((dlookup "fees" pfFields).getD (.num 500)) 4,
            (dlookup "fees" pfFields).getD (.num 500), 4)) ∧
    (dlookup "processing_time" pfFields = none →
      permit_part (.obj fields)
        = (60, (dlookup "fees" pfFields).getD (.num 500), 4)) ∧
    (dlookup "fees" pfFields = none →
      (permit_part (.obj fields)).2.1 = JValue.num 500) := by
  refine ⟨?_, ?_, ?_, ?_⟩
  · intro s hs hwk hw
    simp only [permit_part, hpf, hs, pyInOp, hwk, hw]
  · intro s hs hwk
    simp only [permit_part, hpf, hs, pyInOp, hwk]
  · intro h
    have hs : (dlookup "processing_time" pfFields).getD (.str "4 weeks")
        = JValue.str "4 weeks" := by rw [h]; rfl
    simp only [permit_part, hpf, hs, pyInOp,
      (by decide : strContains "4 weeks" "week" = true),
      (by decide : pyInt (pySplitHead "4 weeks") = none)]
  · intro h
    simp only [permit_part, hpf, h, Option.getD_none]
    split
    · rfl
    · rfl
    · split
      · split
        · rfl
        · rfl
      · rfl

/-- Witness for C4's amended theorem: an unparseable "several weeks" yields
the flat 60; an absent `processing_time` (default "4 weeks") also yields the
flat 60 with the last-assigned fees value; an absent `fees` reports 500. -/
theorem permit_extraction_defaults_witness :
    dlookup "permit_form" [("permit_form",
        JValue.obj [("fees", JValue.num 0),
          ("processing_time", JValue.str "several weeks")])]
      = some (.obj [("fees", JValue.num 0),
          ("processing_time", JValue.str "several weeks")]) ∧
    strContains "several weeks" "week" = true ∧
    pyInt (pySplitHead "several weeks") = none ∧
    permit_part (.obj [("permit_form",
        JValue.obj [("fees", JValue.num 0),
          ("processing_time", JValue.str "several weeks")])])
      = (60, JValue.num 0, 4) ∧
    dlookup "processing_time" [("fees", JValue.num 42)] = none ∧
    permit_part (.obj [("permit_form", JValue.obj [("fees", JValue.num 42)])])
      = (60, JValue.num 42, 4) ∧
    dlookup "fees" [("processing_time", JValue.str "10 days")] = none ∧
    (permit_part (.obj [("permit_form",
        JValue.obj [("processing_time", JValue.str "10 days")])])).2.1
      = JValue.num 500 := by
  refine ⟨rfl, by decide, by decide, ?_, rfl, ?_, rfl, ?_⟩
  · exact (permit_extraction_defaults
      [("permit_form", JValue.obj [("fees", JValue.num 0),
        ("processing_time", JValue.str "several weeks")])]
      [("fees", JValue.num 0), ("processing_time", JValue.str "several weeks")]
      rfl).1 "several weeks" rfl (by decide) (by decide)
  · exact (permit_extraction_defaults
      [("permit_form", JValue.obj [("fees", JValue.num 42)])]
      [("fees", JValue.num 42)] rfl).2.2.1 rfl
  · exact (permit_extraction_defaults
      [("permit_form", JValue.obj [("processing_time", JValue.str "10 days")])]
      [("processing_time", JValue.str "10 days")] rfl).2.2.2 rfl

/-! ## Lemmas about dict assignment and the permit-form merge (C8, C9) -/

theorem dlookup_dset (d : List (String × JValue)) (k k' : String) (v : JValue) :
    dlookup k (dset d k' v) = if k' = k then some v else dlookup k d := by
  induction d with
  | nil => simp [dset, dlookup]
  | cons kv rest ih =>
      obtain ⟨k₀, v₀⟩ := kv
      simp only [dset]
      by_cases h : k₀ = k'
      · subst h
        by_cases h2 : k₀ = k <;> simp [dlookup, h2]
      · rw [if_neg h]
        by_cases h3 : k₀ = k
        · have h4 : ¬ k' = k := fun hk => h (h3.trans hk.symm)
          simp [dlookup, h3, h4]
        · simp [dlookup, h3, ih]

theorem dlookup_eq_none_of_not_mem (k : String) (pairs : List (String × JValue))
    (h : k ∉ pairs.map Prod.fst) : dlookup k pairs = none := by
  induction pairs with
  | nil => rfl
  | cons kv rest ih =>
      obtain ⟨k₀, v₀⟩ := kv
      simp only [List.map_cons, List.mem_cons] at h
      push_neg at h
      rw [dlookup, if_neg (fun hk => h.1 hk.symm)]
      exact ih h.2

theorem dlookup_foldl_dset (pairs : List (String × JValue)) :
    ∀ (d : List (String × JValue)) (k : String), (pairs.map Prod.fst).Nodup →
    dlookup k (pairs.foldl (fun acc kv => dset acc kv.1 kv.2) d)
      = dfirst (dlookup k pairs) (dlookup k d) := by
  induction pairs with
  | nil => intro d k _; simp [dlookup, dfirst]
  | cons kv rest ih =>
      intro d k hnd
      obtain ⟨k₀, v₀⟩ := kv
      simp only [List.map_cons, List.nodup_cons] at hnd
      rw [List.foldl_cons, ih _ k hnd.2, dlookup_dset]
      by_cases h : k₀ = k
      · subst h
        have hnone : dlookup k₀ rest = none :=
          dlookup_eq_none_of_not_mem _ _ hnd.1
        simp [dfirst, dlookup, hnone]
      · simp [dfirst, dlookup, h]

theorem dlookup_filter (p : String → Bool) (pairs : List (String × JValue)) (k : String) :
    dlookup k (pairs.filter (fun kv => p kv.1))
      = if p k then dlookup k pairs else none := by
  induction pairs with
  | nil => simp [dlookup]
  | cons kv rest ih =>
      obtain ⟨k₀, v₀⟩ := kv
      by_cases hp : p k₀
      · rw [List.filter_cons_of_pos (by simpa using hp)]
        by_cases hk : k₀ = k
        · subst hk
          simp [dlookup, hp]
        · simp [dlookup, hk, ih]
      · rw [List.filter_cons_of_neg (by simpa using hp)]
        rw [ih]
        by_cases hk : k₀ = k
        · subst hk
          simp [dlookup, hp]
        · simp [dlookup, hk]

theorem dlookup_mergeKnown (form details : List (String × JValue))
    (hnd : (details.map Prod.fst).Nodup) (k : String) :
    dlookup k (mergeKnown form details)
      = if (dlookup k form).isSome
        then dfirst (dlookup k details) (dlookup k form)
        else none := by
  unfold mergeKnown
  have hnd' : (((details.filter (fun kv => (dlookup kv.1 form).isSome)).map Prod.fst)).Nodup :=
    List.Nodup.sublist (List.Sublist.map _ (List.filter_sublist _)) hnd
  rw [dlookup_foldl_dset _ _ _ hnd',
    dlookup_filter (fun k' => (dlookup k' form).isSome) details k]
  by_cases h : (dlookup k form).isSome
  · simp [h]
  · simp only [if_neg h, dfirst]
    exact Option.not_isSome_iff_eq_none.mp h

theorem dlookup_permit_form_base_isSome (address : String)
    (jn pt reqs fees ptime : JValue) (k : String) :
    (dlookup k (permit_form_base address jn pt reqs fees ptime)).isSome
      = (dlookup k PERMIT_TEMPLATE).isSome := by
  simp only [permit_form_base, dlookup_dset]
  by_cases h1 : "submission_date" = k
  · subst h1; simp [PERMIT_TEMPLATE, dlookup]
  rw [if_neg h1]
  by_cases h2 : "processing_time" = k
  · subst h2; simp [PERMIT_TEMPLATE, dlookup]
  rw [if_neg h2]
  by_cases h3 : "fees" = k
  · subst h3; simp [PERMIT_TEMPLATE, dlookup]
  rw [if_neg h3]
  by_cases h4 : "requirements_checklist" = k
  · subst h4; simp [PERMIT_TEMPLATE, dlookup]
  rw [if_neg h4]
  by_cases h5 : "permit_type" = k
  · subst h5; simp [PERMIT_TEMPLATE, dlookup]
  rw [if_neg h5]
  by_cases h6 : "jurisdiction" = k
  · subst h6; simp [PERMIT_TEMPLATE, dlookup]
  rw [if_neg h6]
  by_cases h7 : "property_address" = k
  · subst h7; simp [PERMIT_TEMPLATE, dlookup]
  rw [if_neg h7]

/-- C9: whenever the jurisdiction blob, after fence stripping, fails to parse
(`loads` returns `none`) or parses to an object lacking the
`"jurisdiction_info"` key, `generate_permit_form_tool` returns the error
string - it does not raise. -/
theorem invalid_jurisdiction_error (loads : String → Option JValue)
    (address jurisdiction_data system_details : String)
    (h : loads (strip_code_fences jurisdiction_data) = none ∨
      ∃ fields, loads (strip_code_fences jurisdiction_data) = some (.obj fields) ∧
        dlookup "jurisdiction_info" fields = none) :
    generate_permit_form_tool loads address jurisdiction_data system_details
      = some (.error permitToolErrorMsg) := by
  rcases h with h | ⟨fields, hf, hl⟩
  · simp [generate_permit_form_tool, extract_json_from_text, h]
  · simp only [generate_permit_form_tool, extract_json_from_text, hf]
    by_cases he : fields.isEmpty
    · simp [he]
    · simp [he, hl]

/-- Witness for C9: a blob on which `loads` fails yields the error string. -/
theorem invalid_jurisdiction_error_witness :
    (fun _ : String => (none : Option JValue)) (strip_code_fences "not json at all") = none ∧
    generate_permit_form_tool (fun _ => none) "1 Main St" "not json at all" ""
      = some (.error permitToolErrorMsg) :=
  ⟨rfl, invalid_jurisdiction_error (fun _ => none) "1 Main St" "not json at all" ""
    (Or.inl rfl)⟩

/-- C8: for a jurisdiction blob parsing to an object whose
`jurisdiction_info` carries the required rule fields, and a system-details
blob parsing to a dict, `generate_permit_form_tool` returns the template
copy with the seven fixed overwrites (address, jurisdiction, permit type,
requirements checklist, fees, processing time, and submission date
"2024-07-18") merged with exactly those system-detail keys that exist in
the template: a recognized key takes the detail value, an unrecognized key
stays absent, and an untouched key keeps its base value. -/
theorem permit_form_merge (loads : String → Option JValue)
    (address jurisdiction_data system_details : String)
    (jiFields r details : List (String × JValue))
    (jn pt reqs fees ptime contact : JValue)
    (hji : extract_json_from_text loads jurisdiction_data = .obj jiFields)
    (hrules : dlookup "jurisdiction_info" jiFields = some (.obj r))
    (h1 : dlookup "jurisdiction_name" r = some jn)
    (h2 : dlookup "permit_type" r = some pt)
    (h3 : dlookup "requirements" r = some reqs)
    (h4 : dlookup "fees" r = some fees)
    (h5 : dlookup "processing_time" r = some ptime)
    (hc : dlookup "contact" r = some contact)
    (hsd : system_details ≠ "")
    (hdet : extract_json_from_text loads system_details = .obj details)
    (hnd : (details.map Prod.fst).Nodup) :
    generate_permit_form_tool loads address jurisdiction_data system_details
      = some (.ok (mergeKnown (permit_form_base address jn pt reqs fees ptime) details)
          contact) ∧
    (∀ k, dlookup k (mergeKnown (permit_form_base address jn pt reqs fees ptime) details)
        = if (dlookup k PERMIT_TEMPLATE).isSome
          then dfirst (dlookup k details)
            (dlookup k (permit_form_base address jn pt reqs fees ptime))
          else none) ∧
    dlookup "property_address" (permit_form_base address jn pt reqs fees ptime)
      = some (.str address) ∧
    dlookup "jurisdiction" (permit_form_base address jn pt reqs fees ptime) = some jn ∧
    dlookup "permit_type" (permit_form_base address jn pt reqs fees ptime) = some pt ∧
    dlookup "requirements_checklist" (permit_form_base address jn pt reqs fees ptime)
      = some reqs ∧
    dlookup "fees" (permit_form_base address jn pt reqs fees ptime) = some fees ∧
    dlookup "processing_time" (permit_form_base address jn pt reqs fees ptime)
      = some ptime ∧
    dlookup "submission_date" (permit_form_base address jn pt reqs fees ptime)
      = some (.str "2024-07-18") ∧
    dlookup "status" (permit_form_base address jn pt reqs fees ptime)
      = some (.str "Draft") := by
  have hne : jiFields.isEmpty = false := by
    cases jiFields with
    | nil => simp [dlookup] at hrules
    | cons hd tl => rfl
  refine ⟨?_, ?_, rfl, rfl, rfl, rfl, rfl, rfl, rfl, rfl⟩
  · simp only [generate_permit_form_tool, hji, hne, Bool.false_eq_true, if_false, hrules,
      generate_permit_form_body, h1, h2, h3, h4, h5, hc, if_pos hsd, hdet]
  · intro k
    rw [dlookup_mergeKnown _ _ hnd k, dlookup_permit_form_base_isSome]

/-- Witness for C8 at a concrete jurisdiction blob and system details
containing one recognized key (`system_size_kw`, which overwrites the
template default) and one unrecognized key (`unknown_key`, which is
dropped). -/
theorem permit_form_merge_witness :
    extract_json_from_text permitMergeSampleLoads "JD"
      = .obj [("jurisdiction_info", permitMergeSampleRules)] ∧
    extract_json_from_text permitMergeSampleLoads "SD"
      = .obj [("system_size_kw", JValue.str "7kW"), ("unknown_key", JValue.str "x")] ∧
    ([("system_size_kw", JValue.str "7kW"),
        ("unknown_key", JValue.str "x")].map Prod.fst).Nodup ∧
    generate_permit_form_tool permitMergeSampleLoads "1 Main St" "JD" "SD"
      = some (.ok (mergeKnown
          (permit_form_base "1 Main St" (.str "City of Los Angeles")
            (.str "Solar Installation Permit") (.arr []) (.num 500) (.str "4-6 weeks"))
          [("system_size_kw", JValue.str "7kW"), ("unknown_key", JValue.str "x")])
          (.str "ladbs.lacity.org")) ∧
    dlookup "system_size_kw" (mergeKnown
        (permit_form_base "1 Main St" (.str "City of Los Angeles")
          (.str "Solar Installation Permit") (.arr []) (.num 500) (.str "4-6 weeks"))
        [("system_size_kw", JValue.str "7kW"), ("unknown_key", JValue.str "x")])
      = some (JValue.str "7kW") ∧
    dlookup "unknown_key" (mergeKnown
        (permit_form_base "1 Main St" (.str "City of Los Angeles")
          (.str "Solar Installation Permit") (.arr []) (.num 500) (.str "4-6 weeks"))
        [("system_size_kw", JValue.str "7kW"), ("unknown_key", JValue.str "x")])
      = none ∧
    dlookup "system_size_kw" PERMIT_TEMPLATE = some (JValue.str "") ∧
    dlookup "property_address" (mergeKnown
        (permit_form_base "1 Main St" (.str "City of Los Angeles")
          (.str "Solar Installation Permit") (.arr []) (.num 500) (.str "4-6 weeks"))
        [("system_size_kw", JValue.str "7kW"), ("unknown_key", JValue.str "x")])
      = some (JValue.str "1 Main St") := by
  refine ⟨rfl, rfl, by decide, ?_, rfl, rfl, rfl, rfl⟩
  exact (permit_form_merge permitMergeSampleLoads "1 Main St" "JD" "SD"
    [("jurisdiction_info", permitMergeSampleRules)]
    [("jurisdiction_name", JValue.str "City of Los Angeles"),
      ("permit_type", JValue.str "Solar Installation Permit"),
      ("requirements", JValue.arr []),
      ("fees", JValue.num 500),
      ("processing_time", JValue.str "4-6 weeks"),
      ("contact", JValue.str "ladbs.lacity.org")]
    [("system_size_kw", JValue.str "7kW"), ("unknown_key", JValue.str "x")]
    (.str "City of Los Angeles") (.str "Solar Installation Permit") (.arr [])
    (.num 500) (.str "4-6 weeks") (.str "ladbs.lacity.org")
    rfl rfl rfl rfl rfl rfl rfl rfl (by decide) rfl (by decide)).1
